import Mathlib

/-!
Shallow embedding of the core of the ai_Doc_assistant repository:
the enhancement client of src/main.py (check_ollama_connection,
start_ollama_server, enhance_text_with_ollama, save_to_firestore) and the
document pipeline of src/processor.py (process_document, create_word_doc).

External operations (HTTP probes, the generation endpoint, the OS process
launcher, the PDF and OCR libraries) are modelled by oracle structures that
fix the outcome of each external call; the embedded functions mirror the
control flow of the Python source over those oracles and record the
externally visible effects (probes, restart attempts, generation requests,
sleeps, diagnostics) in an event trace.
-/

namespace DocAssistant

/-- Python exception values relevant to the enhancement client. The builtin
ConnectionError raised at main.py line 66 derives from OSError and is not a
subclass of requests.exceptions.RequestException (which derives from IOError
on a separate branch of the hierarchy), so the dispatch over the two except
clauses at lines 94 and 101 of main.py distinguishes these three kinds. -/
inductive PyExc
  | builtinConnectionError (msg : String)
  | requestException (msg : String)
  | otherException (msg : String)
deriving DecidableEq, Repr

/-- Membership test for the except clause at main.py line 94:
only the requestException kind is an instance of
requests.exceptions.RequestException. -/
def PyExc.isRequestException : PyExc → Bool
  | .requestException _ => true
  | _ => false

/-- The str() rendering of an exception: its message. -/
def PyExc.str : PyExc → String
  | .builtinConnectionError m => m
  | .requestException m => m
  | .otherException m => m

/-- Outcome of one HTTP GET of the /api/tags status route: either the server
answered with some status code, or the request raised (unreachable). -/
inductive ProbeOutcome
  | status (code : Nat)
  | exc
deriving DecidableEq, Repr

/-- Oracle for one call of check_ollama_connection: the outcome of the first
probe, whether the subprocess.Popen launch inside start_ollama_server
succeeds, and the outcome of the probe after the restart attempt. -/
structure ConnEnv where
  probe1 : ProbeOutcome
  startOk : Bool
  probe2 : ProbeOutcome
deriving DecidableEq, Repr

/-- Outcome of reading the body of a generation response: either
json()["message"]["content"] yields a string, or parsing or projection
raises an exception outside requests.exceptions.RequestException. -/
inductive BodyOutcome
  | content (s : String)
  | parseError (msg : String)
deriving DecidableEq, Repr

/-- Outcome of one requests.post generation call: either a response with a
status code and a body, or a network or timeout failure raising a
requests.exceptions.RequestException. -/
inductive PostOutcome
  | response (statusCode : Nat) (body : BodyOutcome)
  | netError (msg : String)
deriving DecidableEq, Repr

/-- Oracle for one iteration of the retry loop. -/
structure AttemptEnv where
  conn : ConnEnv
  post : PostOutcome
deriving DecidableEq, Repr

/-- Externally visible events of one enhancement call. Sleep durations are
recorded in tenths of a time-unit so that time.sleep(timeout * 0.5) at
main.py line 97 is exact: a sleep of t units is recorded as 10 * t tenths. -/
inductive Event
  | getTags
  | startServer
  | startupSleep (tenths : Nat)
  | post (timeout : Nat)
  | retrySleep (tenths : Nat)
  | stError (msg : String)
deriving DecidableEq, Repr

/-- MAX_RETRIES of main.py line 28. -/
def MAX_RETRIES : Nat := 3

/-- INITIAL_TIMEOUT of main.py line 29. -/
def INITIAL_TIMEOUT : Nat := 30

/-- TIMEOUT_BACKOFF_FACTOR of main.py line 30. -/
def TIMEOUT_BACKOFF_FACTOR : Nat := 2

/-- start_ollama_server (main.py lines 32-41): attempt the Popen launch and,
when it does not raise, sleep 3 time-units (30 tenths) and report success;
when the launch raises, report failure. -/
def start_ollama_server (ok : Bool) : Bool × List Event :=
  if ok then (true, [.startServer, .startupSleep 30]) else (false, [.startServer])

/-- check_ollama_connection (main.py lines 43-57): probe /api/tags with a
short timeout; on success of the GET, report whether the status is 200.
If the GET raises, attempt start_ollama_server; if that fails report false,
otherwise sleep 5 more time-units (50 tenths) and probe once more. -/
def check_ollama_connection (e : ConnEnv) : Bool × List Event :=
  match e.probe1 with
  | .status code => (code == 200, [.getTags])
  | .exc =>
    match start_ollama_server e.startOk with
    | (false, evs) => (false, .getTags :: evs)
    | (true, evs) =>
      match e.probe2 with
      | .status code => (code == 200, .getTags :: evs ++ [.startupSleep 50, .getTags])
      | .exc => (false, .getTags :: evs ++ [.startupSleep 50, .getTags])

/-- The requests.post generation call together with response.raise_for_status
and the json()["message"]["content"] projection (main.py lines 68-92).
A network or timeout failure of the post raises a
requests.exceptions.RequestException; raise_for_status raises an HTTPError
(also a RequestException) exactly for 4xx and 5xx status codes; a failure to
parse the body or to project the nested content field raises an exception
outside the RequestException class. -/
def requestStep (p : PostOutcome) : Except PyExc String :=
  match p with
  | .netError msg => .error (.requestException msg)
  | .response code body =>
    if 400 ≤ code ∧ code < 600 then
      .error (.requestException ("HTTP error " ++ toString code))
    else
      match body with
      | .content s => .ok s
      | .parseError msg => .error (.otherException msg)

/-- Body of one iteration of the retry loop (main.py lines 64-92) before
exception dispatch: the connection check, then — when the check reports the
server responsive — the generation request with the current timeout;
when the check reports false, line 66 raises the builtin ConnectionError. -/
def attemptBody (a : AttemptEnv) (timeout : Nat) : Except PyExc String × List Event :=
  match check_ollama_connection a.conn with
  | (false, evs) => (.error (.builtinConnectionError "Ollama server unavailable"), evs)
  | (true, evs) => (requestStep a.post, evs ++ [.post timeout])

/-- Result of enhance_text_with_ollama, tagged by its return site in
main.py: ok is the normal return of line 92, degraded the return of the
original text from the generic except clause at line 103, raised the
re-raise at line 96, and fallback the defensive return at line 105. -/
inductive EnhanceResult
  | ok (content : String)
  | degraded (text : String)
  | raised (e : PyExc)
  | fallback (text : String)
deriving DecidableEq, Repr

/-- The retry loop of enhance_text_with_ollama (main.py lines 63-105).
fuel is the number of iterations of range(MAX_RETRIES) still to run and
attempt the current loop index; reaching fuel = 0 is the loop running off
its end into the fallback return of line 105. On a RequestException the
final attempt re-raises; earlier attempts sleep timeout * 0.5 units
(timeout * 5 tenths), double the timeout and continue. Any other exception
emits the st.error diagnostic and returns the input text unchanged. -/
def enhanceAux (env : Nat → AttemptEnv) (text : String) :
    Nat → Nat → Nat → EnhanceResult × List Event
  | _, _, 0 => (.fallback text, [])
  | attempt, timeout, fuel + 1 =>
    match attemptBody (env attempt) timeout with
    | (.ok s, evs) => (.ok s, evs)
    | (.error e, evs) =>
      if e.isRequestException then
        if attempt == MAX_RETRIES - 1 then (.raised e, evs)
        else
          match enhanceAux env text (attempt + 1) (timeout * TIMEOUT_BACKOFF_FACTOR) fuel with
          | (r, evs2) => (r, evs ++ .retrySleep (timeout * 5) :: evs2)
      else (.degraded text, evs ++ [.stError ("Unexpected error: " ++ e.str)])

/-- enhance_text_with_ollama (main.py lines 59-105): run the retry loop from
attempt 0 with the initial timeout. -/
def enhance_text_with_ollama (env : Nat → AttemptEnv) (text : String) :
    EnhanceResult × List Event :=
  enhanceAux env text 0 INITIAL_TIMEOUT MAX_RETRIES

/-- Timeouts of the generation requests recorded in a trace, in order. -/
def postTimeouts (evs : List Event) : List Nat :=
  evs.filterMap fun e => match e with | .post t => some t | _ => none

/-- Durations (tenths) of the retry sleeps recorded in a trace, in order. -/
def retrySleeps (evs : List Event) : List Nat :=
  evs.filterMap fun e => match e with | .retrySleep s => some s | _ => none

/-- Number of restart attempts recorded in a trace. -/
def startServerCount (evs : List Event) : Nat :=
  (evs.filter fun e => e == Event.startServer).length

/-- Python str.endswith, by characters: t is a suffix of s. -/
def pyEndsWith (s t : String) : Bool :=
  t.data.isSuffixOf s.data

/-- Character list l leads the character list of m. -/
def listLeads : List Char → List Char → Bool
  | [], _ => true
  | _ :: _, [] => false
  | c :: cs, d :: ds => (c == d) && listLeads cs ds

/-- Python str.startswith, by characters: t starts the string s. -/
def pyStartsWith (s t : String) : Bool :=
  listLeads t.data s.data

/-- Python str.split("\n"), by characters: cut the character list at every
newline; adjacent newlines and newlines at either end yield empty pieces,
and the empty input yields the single empty piece. -/
def splitLines : List Char → List (List Char)
  | [] => [[]]
  | c :: rest =>
    match splitLines rest with
    | [] => [[c]]
    | l :: ls => if c = Char.ofNat 10 then [] :: l :: ls else (c :: l) :: ls

/-- Truthiness of Python str.strip() on a line: true exactly when some
character is not whitespace. -/
def stripTruthy (l : List Char) : Bool :=
  l.any fun c => !c.isWhitespace

/-- One page of a PDF as the extraction libraries see it: the text of its
native text layer as returned by page.extract_text() (the empty string
standing for a page with no extractable layer, the falsy case of
processor.py line 31), and the text OCR yields for the rendered page image. -/
structure PdfPage where
  nativeText : String
  ocrText : String
deriving DecidableEq, Repr

/-- Oracle for the PDF operations on one uploaded PDF, in execution order:
the outcome of tmp.write(file.getvalue()) that materializes the upload into
the temporary file (processor.py lines 21-23; the write can raise, e.g. on
a full disk), the outcome of PyPDF2.PdfReader (which raises on a malformed
file), and the outcome of pdf2image.convert_from_path and pytesseract on
this document (rendering can raise, e.g. when the rasterizer is missing;
on success each page image OCRs to its ocrText). -/
structure PdfFile where
  writeOutcome : Except String Unit
  readerOutcome : Except String (List PdfPage)
  convertOk : Bool
  convertErrMsg : String
deriving Repr

/-- An uploaded file: its name and oracles for the three extraction
backends. txtDecode is the outcome of read().decode("utf-8") and docxParse
the paragraph texts the docx library yields (or the message of the
exception either raises). -/
structure UploadedFile where
  name : String
  txtDecode : Except String String
  docxParse : Except String (List String)
  pdf : PdfFile
deriving Repr

/-- The OCR fallback of processor.py lines 35-37: render every page of the
document (not only the failing one) and append the OCR text of each, with a
trailing newline, to the accumulator. -/
def ocrAllPages (pages : List PdfPage) : String :=
  String.join (pages.map fun p => p.ocrText ++ "\n")

/-- The loop body of processor.py lines 29-37 over the remaining pages,
threading the accumulator text: append the native text of the page with a
trailing newline when the layer is non-empty, otherwise run the
whole-document OCR fallback (which raises when the rasterizer fails) and
append its output for every page of the document. -/
def pdfWalkGo (pdf : PdfFile) (whole : List PdfPage) :
    List PdfPage → String → Except String String
  | [], text => .ok text
  | page :: rest, text =>
    if page.nativeText ≠ "" then
      pdfWalkGo pdf whole rest (text ++ page.nativeText ++ "\n")
    else if pdf.convertOk then
      pdfWalkGo pdf whole rest (text ++ ocrAllPages whole)
    else
      .error pdf.convertErrMsg

/-- The page walk of processor.py lines 26-38: start from the empty
accumulator and walk every page of the document. -/
def pdfPageWalk (pdf : PdfFile) (pages : List PdfPage) : Except String String :=
  pdfWalkGo pdf pages pages ""

/-- State of the scoped temporary file materialized for a PDF upload. -/
structure TmpState where
  tmpExists : Bool
deriving DecidableEq, Repr

/-- The PDF branch of process_document (processor.py lines 20-40).
NamedTemporaryFile(delete=False) creates the temporary file on disk at
once, and closing it does not remove it; tmp.write(file.getvalue()) then
materializes the upload into it. When that write raises, the exception
propagates to the outer handler BEFORE the try/finally of lines 25-40 is
entered, so os.unlink never runs and the temporary file persists. When the
write succeeds, the page walk runs inside the try block and the finally
clause unlinks the file, on the success and on the exception path alike.
The returned state records whether the temporary file still exists when
the branch exits. -/
def pdfBranch (pdf : PdfFile) : Except String String × TmpState :=
  match pdf.writeOutcome with
  | .error msg => (Except.error msg, { tmpExists := true })
  | .ok _ =>
    (match pdf.readerOutcome with
      | .error msg => Except.error msg
      | .ok pages => pdfPageWalk pdf pages,
      { tmpExists := false })

/-- The dispatch and wrapping of process_document (processor.py lines
10-46) without the outer except clause: suffix dispatch to the three
extraction backends, and the ValueError of line 43 for any other suffix.
The returned state records the temporary file of the PDF branch; the other
branches create none. -/
def processDocumentInner (file : UploadedFile) : Except String String × TmpState :=
  if pyEndsWith file.name ".txt" then
    (file.txtDecode, { tmpExists := false })
  else if pyEndsWith file.name ".docx" then
    (file.docxParse.map (fun paras => String.intercalate "\n" paras),
      { tmpExists := false })
  else if pyEndsWith file.name ".pdf" then
    pdfBranch file.pdf
  else
    (Except.error ("Unsupported file format: " ++ file.name), { tmpExists := false })

/-- process_document (processor.py lines 10-46): the outer except clause at
line 45 catches every exception of the pipeline — the unsupported-format
ValueError of line 43 included — and re-raises it as a ValueError whose
message prefixes the original description with "Error processing
document: ". -/
def process_document (file : UploadedFile) : Except String String × TmpState :=
  match processDocumentInner file with
  | (.ok s, st) => (.ok s, st)
  | (.error msg, st) => (.error ("Error processing document: " ++ msg), st)

/-- The in-memory document create_word_doc builds: the headings added and
the paragraphs added, in order. -/
structure WordDoc where
  headings : List String
  paragraphs : List String
deriving DecidableEq, Repr

/-- create_word_doc (processor.py lines 48-63): one heading, then one
paragraph per newline-separated line whose strip() is truthy (contains a
non-whitespace character), in the order of the input. -/
def create_word_doc (content : String) : WordDoc :=
  { headings := ["Enhanced Document"],
    paragraphs := ((splitLines content.data).filter stripTruthy).map String.mk }

/-- The document record save_to_firestore writes (main.py lines 113-121).
Python slicing s[:10000] keeps the first 10000 characters; the identifier
and the two timestamps come from the environment. -/
structure DocRecord where
  doc_id : String
  name : String
  original_content : String
  enhanced_content : String
  created_at : String
  updated_at : String
  status : String
deriving DecidableEq, Repr

/-- Python string slicing s[:n]: the first n characters of s (all of s when
it is shorter). -/
def pySlice (s : String) (n : Nat) : String :=
  String.mk (s.data.take n)

/-- The record construction of save_to_firestore (main.py lines 107-129):
uuid and the two timestamps are oracles for uuid.uuid4() and
datetime.now().isoformat(); content fields are truncated to 10000
characters and the status tag is the literal "processed". -/
def save_to_firestore (uuid docName originalContent enhancedContent now1 now2 : String) :
    DocRecord :=
  { doc_id := uuid,
    name := docName,
    original_content := pySlice originalContent 10000,
    enhanced_content := pySlice enhancedContent 10000,
    created_at := now1,
    updated_at := now2,
    status := "processed" }

/-- Test for the re-raise exit of main.py line 96. -/
def EnhanceResult.isRaised : EnhanceResult → Bool
  | .raised _ => true
  | _ => false

/-- Test for the defensive fallback exit of main.py line 105. -/
def EnhanceResult.isFallback : EnhanceResult → Bool
  | .fallback _ => true
  | _ => false

/-- The timeout sequence the backoff of main.py line 98 generates: n values
starting at t, each the double of the one before. -/
def geomSeq (t : Nat) : Nat → List Nat
  | 0 => []
  | n + 1 => t :: geomSeq (t * TIMEOUT_BACKOFF_FACTOR) n

/-- l is an initial segment of big. -/
def initSeg (l big : List Nat) : Prop :=
  big.take l.length = l

/-- Checks that every retry sleep of a trace immediately follows a
generation request and lasts half that request's timeout (a timeout of t
units is t * 5 tenths when halved). -/
def sleepsFollowFailedPost : List Event → Bool
  | .post t :: .retrySleep s :: rest => (s == t * 5) && sleepsFollowFailedPost rest
  | .retrySleep _ :: _ => false
  | _ :: rest => sleepsFollowFailedPost rest
  | [] => true

/-- An environment in which the backend is permanently unreachable: every
probe raises, the restart launch itself succeeds. -/
def unreachableEnv : Nat → AttemptEnv := fun _ =>
  { conn := { probe1 := .exc, startOk := true, probe2 := .exc },
    post := .netError "unused" }

/-- An environment in which the backend is responsive to probes but every
generation request times out. -/
def transportFailEnv : Nat → AttemptEnv := fun _ =>
  { conn := { probe1 := .status 200, startOk := true, probe2 := .exc },
    post := .netError "timeout" }

/-- An environment in which the probe succeeds and the generation response
body fails to parse. -/
def parseErrEnv : Nat → AttemptEnv := fun _ =>
  { conn := { probe1 := .status 200, startOk := true, probe2 := .exc },
    post := .response 200 (.parseError "KeyError: message") }

/-- A four-page example PDF: pages 2 and 4 have no native text layer. -/
def examplePages : List PdfPage :=
  [{ nativeText := "native1", ocrText := "ocr1" },
   { nativeText := "", ocrText := "ocr2" },
   { nativeText := "native3", ocrText := "ocr3" },
   { nativeText := "", ocrText := "ocr4" }]

/-- The example PDF with well-behaved write, reader and rasterizer
oracles. -/
def examplePdf : PdfFile :=
  { writeOutcome := .ok (), readerOutcome := .ok examplePages,
    convertOk := true, convertErrMsg := "" }

/-- An upload with an unsupported suffix. -/
def csvUpload : UploadedFile :=
  { name := "data.csv",
    txtDecode := .error "unused",
    docxParse := .error "unused",
    pdf := examplePdf }

/-- A .txt upload whose byte content fails to decode as UTF-8. -/
def brokenTxtUpload : UploadedFile :=
  { name := "notes.txt",
    txtDecode := .error "invalid start byte",
    docxParse := .error "unused",
    pdf := examplePdf }

/-- A PDF upload whose materialization write succeeds but whose reader
raises. -/
def brokenPdfUpload : UploadedFile :=
  { name := "scan.pdf",
    txtDecode := .error "unused",
    docxParse := .error "unused",
    pdf := { writeOutcome := .ok (),
             readerOutcome := .error "EOF marker not found",
             convertOk := false, convertErrMsg := "poppler missing" } }

/-- A PDF upload whose materialization write raises (here: a full disk)
before the try/finally of the extraction is entered. -/
def failingWriteUpload : UploadedFile :=
  { name := "big.pdf",
    txtDecode := .error "unused",
    docxParse := .error "unused",
    pdf := { writeOutcome := .error "No space left on device",
             readerOutcome := .error "unused",
             convertOk := true, convertErrMsg := "" } }

/-- A 20000-character string of the letter A. -/
def strA : String := String.mk (List.replicate 20000 (Char.ofNat 65))

/-- A 20000-character string of the letter B. -/
def strB : String := String.mk (List.replicate 20000 (Char.ofNat 66))

/-- Rendering the claim describes for the PDF page walk: each page with a
native text layer contributes that text with a trailing newline, and each
page without one contributes one whole copy of the OCR text of every page
of the document. Stated over a separate traversal list so that it can be
related to the accumulator of the embedded fold. -/
def pdfTextSpec (whole : List PdfPage) : List PdfPage → String
  | [] => ""
  | p :: rest =>
    (if p.nativeText ≠ "" then p.nativeText ++ "\n" else ocrAllPages whole)
      ++ pdfTextSpec whole rest

/-! Theorems. -/

/-- Length of a Lean string is the length of its character list. -/
theorem string_length_mk (l : List Char) : (String.mk l).length = l.length := rfl

/-- Length of a Python slice s[:n]. -/
theorem pySlice_length (s : String) (n : Nat) :
    (pySlice s n).length = min n s.length := by
  simp only [pySlice, string_length_mk, List.length_take]
  rfl

/-- C7: every successfully built document record stores each content field
as the input truncated to at most 10000 characters — exactly 10000 when the
input is longer — and carries the fixed status tag "processed". -/
theorem C7_record_truncation (uuid docName orig enh now1 now2 : String) :
    (save_to_firestore uuid docName orig enh now1 now2).original_content =
      pySlice orig 10000 ∧
    (save_to_firestore uuid docName orig enh now1 now2).enhanced_content =
      pySlice enh 10000 ∧
    (save_to_firestore uuid docName orig enh now1 now2).original_content.length ≤ 10000 ∧
    (save_to_firestore uuid docName orig enh now1 now2).enhanced_content.length ≤ 10000 ∧
    (10000 ≤ orig.length →
      (save_to_firestore uuid docName orig enh now1 now2).original_content.length = 10000) ∧
    (10000 ≤ enh.length →
      (save_to_firestore uuid docName orig enh now1 now2).enhanced_content.length = 10000) ∧
    (save_to_firestore uuid docName orig enh now1 now2).status = "processed" := by
  refine ⟨rfl, rfl, ?_, ?_, fun h => ?_, fun h => ?_, rfl⟩
  · show (pySlice orig 10000).length ≤ 10000
    rw [pySlice_length]
    omega
  · show (pySlice enh 10000).length ≤ 10000
    rw [pySlice_length]
    omega
  · show (pySlice orig 10000).length = 10000
    rw [pySlice_length]
    omega
  · show (pySlice enh 10000).length = 10000
    rw [pySlice_length]
    omega

/-- C7 witness: at the 20000-character inputs the stored fields have length
exactly 10000 and the status is "processed". -/
theorem C7_record_truncation_witness :
    (save_to_firestore "id0" "doc" strA strB "t1" "t2").original_content.length = 10000 ∧
    (save_to_firestore "id0" "doc" strA strB "t1" "t2").enhanced_content.length = 10000 ∧
    (save_to_firestore "id0" "doc" strA strB "t1" "t2").status = "processed" := by
  have h := C7_record_truncation "id0" "doc" strA strB "t1" "t2"
  have hA : (10000 : Nat) ≤ strA.length := by
    simp only [strA, string_length_mk, List.length_replicate]
    omega
  have hB : (10000 : Nat) ≤ strB.length := by
    simp only [strB, string_length_mk, List.length_replicate]
    omega
  exact ⟨h.2.2.2.2.1 hA, h.2.2.2.2.2.1 hB, h.2.2.2.2.2.2⟩

/-- C8: the Document Builder emits exactly the heading "Enhanced Document",
its paragraphs are the newline-separated lines that contain a
non-whitespace character, in original order (a sublist of the split), and
on the inputs "Hello\n\nWorld" and "" it yields exactly the paragraphs
["Hello", "World"] and [] respectively. -/
theorem C8_builder (content : String) :
    (create_word_doc content).headings = ["Enhanced Document"] ∧
    ((splitLines content.data).filter stripTruthy).Sublist (splitLines content.data) ∧
    (create_word_doc content).paragraphs =
      ((splitLines content.data).filter stripTruthy).map String.mk ∧
    ((create_word_doc content).paragraphs.all
      (fun p => p.data.any fun c => !c.isWhitespace)) = true ∧
    create_word_doc "Hello\n\nWorld" =
      { headings := ["Enhanced Document"], paragraphs := ["Hello", "World"] } ∧
    create_word_doc "" = { headings := ["Enhanced Document"], paragraphs := [] } := by
  refine ⟨rfl, List.filter_sublist _, rfl, ?_, by rfl, by rfl⟩
  simp only [create_word_doc, List.all_eq_true, List.mem_map]
  rintro p ⟨l, hl, rfl⟩
  exact (List.mem_filter.mp hl).2

/-- C5 counterexample: on the unsupported suffix .csv the raised error is
the ValueError of processor.py line 43 re-wrapped by the outer except
clause of line 45, so it carries the same uniform "Error processing
document: " wrapper as any parsing failure (here a .txt decode failure)
instead of a distinct kind. -/
theorem C5_counterexample :
    (process_document csvUpload).1 =
      Except.error "Error processing document: Unsupported file format: data.csv" ∧
    (process_document brokenTxtUpload).1 =
      Except.error "Error processing document: invalid start byte" ∧
    pyStartsWith "Error processing document: Unsupported file format: data.csv"
      "Error processing document: " = true := by
  refine ⟨rfl, rfl, ?_⟩
  rfl

/-- C5 amended: an upload whose name ends in none of .txt, .docx, .pdf
fails with the unsupported-format message naming the rejected file, but
wrapped by the same uniform outer handler that wraps parsing failures, so
the raised kind is the uniform one with the format description embedded. -/
theorem C5_amended (file : UploadedFile)
    (h1 : pyEndsWith file.name ".txt" = false)
    (h2 : pyEndsWith file.name ".docx" = false)
    (h3 : pyEndsWith file.name ".pdf" = false) :
    (process_document file).1 =
      Except.error ("Error processing document: Unsupported file format: " ++ file.name) := by
  have hlit : ("Error processing document: " : String) ++ "Unsupported file format: " =
      "Error processing document: Unsupported file format: " := rfl
  simp [process_document, processDocumentInner, h1, h2, h3, ← String.append_assoc, hlit]

/-- C5 amended witness: the amended statement at the concrete .csv upload. -/
theorem C5_amended_witness :
    (process_document csvUpload).1 =
      Except.error ("Error processing document: Unsupported file format: " ++ csvUpload.name) :=
  C5_amended csvUpload (by decide) (by decide) (by decide)

/-- C6 counterexample: when the write that materializes the upload into the
temporary file raises (processor.py lines 21-23), the exception propagates
to the outer handler before the try/finally of lines 25-40 is entered, so
os.unlink never runs: the call fails and the temporary file still exists,
refuting removal on every exception path of the extraction. -/
theorem C6_counterexample :
    (process_document failingWriteUpload).1 =
      Except.error "Error processing document: No space left on device" ∧
    (process_document failingWriteUpload).2.tmpExists = true :=
  ⟨rfl, rfl⟩

/-- C6 amended: once the upload is materialized (the write into the
temporary file does not raise), the temporary file does not exist when the
call returns, on every exit path of the extraction — success, parsing
failure, or any exception raised anywhere in the page walk — because those
paths run inside the try/finally; only a failure of the materialization
write itself, which precedes the try/finally, leaks the file. -/
theorem C6_tmp_removed (pdf : PdfFile) (file : UploadedFile)
    (hw : pdf.writeOutcome = Except.ok ())
    (hwf : file.pdf.writeOutcome = Except.ok ()) :
    (pdfBranch pdf).2.tmpExists = false ∧
    (process_document file).2.tmpExists = false := by
  have hb : ∀ p : PdfFile, p.writeOutcome = Except.ok () →
      (pdfBranch p).2.tmpExists = false := by
    intro p hp
    unfold pdfBranch
    rw [hp]
  have hsnd : (process_document file).2 = (processDocumentInner file).2 := by
    unfold process_document
    rcases h : processDocumentInner file with ⟨r, st⟩
    cases r <;> simp
  refine ⟨hb pdf hw, ?_⟩
  rw [hsnd]
  unfold processDocumentInner
  split
  · rfl
  · split
    · rfl
    · split
      · exact hb file.pdf hwf
      · rfl

/-- C6 amended witness: on the upload whose write succeeds but whose reader
raises — an exception path of the page walk — the extraction fails and the
temporary file is gone. -/
theorem C6_tmp_removed_witness :
    (pdfBranch brokenPdfUpload.pdf).2.tmpExists = false ∧
    (process_document brokenPdfUpload).2.tmpExists = false :=
  C6_tmp_removed brokenPdfUpload.pdf brokenPdfUpload rfl rfl

/-- The embedded page walk accumulates exactly the claim-side rendering
when the rasterizer oracle succeeds. -/
theorem pdfWalkGo_spec (pdf : PdfFile) (whole : List PdfPage)
    (hc : pdf.convertOk = true) :
    ∀ (todo : List PdfPage) (acc : String),
      pdfWalkGo pdf whole todo acc = Except.ok (acc ++ pdfTextSpec whole todo)
  | [], acc => by simp [pdfWalkGo, pdfTextSpec, String.append_empty]
  | p :: rest, acc => by
    by_cases h : p.nativeText = ""
    · simp [pdfWalkGo, pdfTextSpec, h, hc, pdfWalkGo_spec pdf whole hc rest,
        String.append_assoc]
    · simp [pdfWalkGo, pdfTextSpec, h, hc, pdfWalkGo_spec pdf whole hc rest,
        String.append_assoc]

/-- Length of the claim-side rendering: the native contributions plus one
whole-document OCR copy per page without a text layer. -/
theorem pdfTextSpec_length (whole : List PdfPage) :
    ∀ todo : List PdfPage,
      (pdfTextSpec whole todo).length =
        ((todo.filter fun p => p.nativeText ≠ "").map
          fun p => p.nativeText.length + 1).sum
          + (todo.filter fun p => p.nativeText = "").length
            * (ocrAllPages whole).length
  | [] => by simp [pdfTextSpec]
  | p :: rest => by
    have hnl : ("\n" : String).length = 1 := rfl
    by_cases h : p.nativeText = ""
    · simp [pdfTextSpec, h, String.length_append, hnl, pdfTextSpec_length whole rest]
      ring
    · simp [pdfTextSpec, h, String.length_append, hnl, pdfTextSpec_length whole rest]
      ring

/-- C9: for a PDF whose reader yields the given pages and whose rasterizer
works, each page without a native text layer triggers the whole-document
OCR fallback once, so the extracted text is the rendering in which every
textless page contributes one whole copy of the OCR output of every page,
and its length counts one whole-document OCR block per textless page on
top of the native text of the pages that had a layer. -/
theorem C9_ocr_fallback (pdf : PdfFile) (pages : List PdfPage)
    (hw : pdf.writeOutcome = Except.ok ())
    (hr : pdf.readerOutcome = Except.ok pages) (hc : pdf.convertOk = true) :
    (pdfBranch pdf).1 = Except.ok (pdfTextSpec pages pages) ∧
    (pdfTextSpec pages pages).length =
      ((pages.filter fun p => p.nativeText ≠ "").map
        fun p => p.nativeText.length + 1).sum
        + (pages.filter fun p => p.nativeText = "").length
          * (ocrAllPages pages).length := by
  constructor
  · have h1 : (pdfBranch pdf).1 = pdfPageWalk pdf pages := by
      unfold pdfBranch
      rw [hw, hr]
    rw [h1]
    unfold pdfPageWalk
    rw [pdfWalkGo_spec pdf pages hc pages "", String.empty_append]
  · exact pdfTextSpec_length pages pages

/-- C9 witness: on the four-page example whose second and fourth pages are
textless, the extracted text contains the whole-document OCR block twice. -/
theorem C9_ocr_fallback_witness :
    (pdfBranch examplePdf).1 = Except.ok (pdfTextSpec examplePages examplePages) ∧
    pdfTextSpec examplePages examplePages =
      "native1\nocr1\nocr2\nocr3\nocr4\nnative3\nocr1\nocr2\nocr3\nocr4\n" := by
  refine ⟨(C9_ocr_fallback examplePdf examplePages rfl rfl rfl).1, ?_⟩
  rfl

/-- Unfolding of one iteration of the retry loop. -/
theorem enhanceAux_succ (env : Nat → AttemptEnv) (text : String)
    (attempt timeout fuel : Nat) :
    enhanceAux env text attempt timeout (fuel + 1) =
      match attemptBody (env attempt) timeout with
      | (.ok s, evs) => (.ok s, evs)
      | (.error e, evs) =>
        if e.isRequestException then
          if attempt == MAX_RETRIES - 1 then (.raised e, evs)
          else
            match enhanceAux env text (attempt + 1) (timeout * TIMEOUT_BACKOFF_FACTOR) fuel with
            | (r, evs2) => (r, evs ++ .retrySleep (timeout * 5) :: evs2)
        else (.degraded text, evs ++ [.stError ("Unexpected error: " ++ e.str)]) := rfl

/-- The attempt body as a function of the connection check result. -/
theorem attemptBody_eq (a : AttemptEnv) (timeout : Nat) :
    attemptBody a timeout =
      if (check_ollama_connection a.conn).1 = true then
        (requestStep a.post, (check_ollama_connection a.conn).2 ++ [Event.post timeout])
      else
        (Except.error (PyExc.builtinConnectionError "Ollama server unavailable"),
          (check_ollama_connection a.conn).2) := by
  unfold attemptBody
  rcases h : check_ollama_connection a.conn with ⟨b, evs⟩
  cases b <;> simp

/-- The connection check records no generation request. -/
theorem postTimeouts_conn (e : ConnEnv) :
    postTimeouts (check_ollama_connection e).2 = [] := by
  rcases e with ⟨p1, so, p2⟩
  cases p1 <;> cases so <;> cases p2 <;>
    simp [check_ollama_connection, start_ollama_server, postTimeouts]

/-- The connection check records no retry sleep. -/
theorem retrySleeps_conn (e : ConnEnv) :
    retrySleeps (check_ollama_connection e).2 = [] := by
  rcases e with ⟨p1, so, p2⟩
  cases p1 <;> cases so <;> cases p2 <;>
    simp [check_ollama_connection, start_ollama_server, retrySleeps]

/-- Request timeouts of a concatenated trace. -/
theorem postTimeouts_append (l1 l2 : List Event) :
    postTimeouts (l1 ++ l2) = postTimeouts l1 ++ postTimeouts l2 := by
  simp [postTimeouts, List.filterMap_append]

/-- Request timeouts of the empty trace. -/
theorem postTimeouts_nil : postTimeouts [] = [] := rfl

/-- A request contributes its timeout. -/
theorem postTimeouts_post (t : Nat) (l : List Event) :
    postTimeouts (Event.post t :: l) = t :: postTimeouts l := rfl

/-- A diagnostic contributes no timeout. -/
theorem postTimeouts_stError (m : String) (l : List Event) :
    postTimeouts (Event.stError m :: l) = postTimeouts l := rfl

/-- A retry sleep contributes no timeout. -/
theorem postTimeouts_retrySleep (s : Nat) (l : List Event) :
    postTimeouts (Event.retrySleep s :: l) = postTimeouts l := rfl

/-- Retry sleeps of the empty trace. -/
theorem retrySleeps_nil : retrySleeps [] = [] := rfl

/-- A request contributes no retry sleep. -/
theorem retrySleeps_post (t : Nat) (l : List Event) :
    retrySleeps (Event.post t :: l) = retrySleeps l := rfl

/-- A diagnostic contributes no retry sleep. -/
theorem retrySleeps_stError (m : String) (l : List Event) :
    retrySleeps (Event.stError m :: l) = retrySleeps l := rfl

/-- A retry sleep contributes its duration. -/
theorem retrySleeps_retrySleep (s : Nat) (l : List Event) :
    retrySleeps (Event.retrySleep s :: l) = s :: retrySleeps l := rfl

/-- Retry sleeps of a concatenated trace. -/
theorem retrySleeps_append (l1 l2 : List Event) :
    retrySleeps (l1 ++ l2) = retrySleeps l1 ++ retrySleeps l2 := by
  simp [retrySleeps, List.filterMap_append]

/-- The sleep checker skips a probe event. -/
theorem sffp_getTags (l : List Event) :
    sleepsFollowFailedPost (Event.getTags :: l) = sleepsFollowFailedPost l := rfl

/-- The sleep checker skips a restart event. -/
theorem sffp_startServer (l : List Event) :
    sleepsFollowFailedPost (Event.startServer :: l) = sleepsFollowFailedPost l := rfl

/-- The sleep checker skips a startup sleep. -/
theorem sffp_startupSleep (n : Nat) (l : List Event) :
    sleepsFollowFailedPost (Event.startupSleep n :: l) = sleepsFollowFailedPost l := rfl

/-- The sleep checker skips a diagnostic event. -/
theorem sffp_stError (m : String) (l : List Event) :
    sleepsFollowFailedPost (Event.stError m :: l) = sleepsFollowFailedPost l := rfl

/-- The sleep checker accepts a final request. -/
theorem sffp_post_nil (t : Nat) : sleepsFollowFailedPost [Event.post t] = true := rfl

/-- The sleep checker on a request followed by a diagnostic. -/
theorem sffp_post_stError (t : Nat) (m : String) (l : List Event) :
    sleepsFollowFailedPost (Event.post t :: Event.stError m :: l) =
      sleepsFollowFailedPost l := rfl

/-- The sleep checker on a request followed by a retry sleep. -/
theorem sffp_post_retrySleep (t s : Nat) (l : List Event) :
    sleepsFollowFailedPost (Event.post t :: Event.retrySleep s :: l) =
      ((s == t * 5) && sleepsFollowFailedPost l) := rfl

/-- The sleep checker passes over the events of a connection check. -/
theorem sffp_conn (e : ConnEnv) (l : List Event) :
    sleepsFollowFailedPost ((check_ollama_connection e).2 ++ l) =
      sleepsFollowFailedPost l := by
  rcases e with ⟨p1, so, p2⟩
  cases p1 <;> cases so <;> cases p2 <;>
    simp [check_ollama_connection, start_ollama_server, sffp_getTags,
      sffp_startServer, sffp_startupSleep]

/-- The empty list starts every list. -/
theorem initSeg_nil (big : List Nat) : initSeg [] big := by
  simp [initSeg]

/-- Extending an initial segment by a shared head. -/
theorem initSeg_cons (a : Nat) {l big : List Nat} (h : initSeg l big) :
    initSeg (a :: l) (a :: big) := by
  simpa [initSeg] using h

/-- A singleton of the head is an initial segment. -/
theorem initSeg_single (a : Nat) (big : List Nat) : initSeg [a] (a :: big) := by
  simp [initSeg]

/-- An initial segment is no longer than the list it starts. -/
theorem initSeg_length_le {l big : List Nat} (h : initSeg l big) :
    l.length ≤ big.length := by
  have h2 := congrArg List.length h
  simp [List.length_take] at h2
  omega

/-- Master invariant of the retry loop: the request timeouts of the trace
form an initial segment of the doubling sequence from the current timeout;
every retry sleep immediately follows the request it backs off from and
lasts half that request's timeout; when the loop index and the fuel add up
to MAX_RETRIES, a raised result is the transport error of the final
attempt after all remaining attempts were posted, the defensive fallback is
never reached while fuel is left, and at most fuel - 1 retry sleeps occur. -/
theorem enhanceAux_master (env : Nat → AttemptEnv) (text : String) :
    ∀ (fuel attempt timeout : Nat),
      initSeg (postTimeouts (enhanceAux env text attempt timeout fuel).2)
        (geomSeq timeout fuel) ∧
      sleepsFollowFailedPost (enhanceAux env text attempt timeout fuel).2 = true ∧
      (attempt + fuel = MAX_RETRIES →
        ∀ e, (enhanceAux env text attempt timeout fuel).1 = EnhanceResult.raised e →
          e.isRequestException = true ∧
          postTimeouts (enhanceAux env text attempt timeout fuel).2 =
            geomSeq timeout fuel ∧
          requestStep (env (MAX_RETRIES - 1)).post = Except.error e) ∧
      (attempt + fuel = MAX_RETRIES → 1 ≤ fuel →
        (enhanceAux env text attempt timeout fuel).1.isFallback = false) ∧
      (attempt + fuel = MAX_RETRIES →
        (retrySleeps (enhanceAux env text attempt timeout fuel).2).length ≤ fuel - 1)
  | 0, attempt, timeout => by
    refine ⟨?_, rfl, ?_, ?_, ?_⟩
    · exact initSeg_nil _
    · intro _ e he
      simp [enhanceAux] at he
    · intro _ h1
      omega
    · intro _
      simp [enhanceAux, retrySleeps]
  | fuel + 1, attempt, timeout => by
    have hM : MAX_RETRIES = 3 := rfl
    by_cases hc : (check_ollama_connection (env attempt).conn).1 = true
    · cases hreq : requestStep (env attempt).post with
      | ok s =>
        have hval : enhanceAux env text attempt timeout (fuel + 1) =
            (EnhanceResult.ok s,
              (check_ollama_connection (env attempt).conn).2 ++ [Event.post timeout]) := by
          rw [enhanceAux_succ, attemptBody_eq]
          simp [hc, hreq]
        refine ⟨?_, ?_, ?_, ?_, ?_⟩
        · simp only [hval]
          simp [postTimeouts_append, postTimeouts_conn, postTimeouts_post, postTimeouts_stError, postTimeouts_retrySleep, postTimeouts_nil, geomSeq, initSeg]
        · simp only [hval]
          rw [sffp_conn]
          exact sffp_post_nil timeout
        · intro _ e he
          simp only [hval] at he
          simp at he
        · intro _ _
          simp [hval, EnhanceResult.isFallback]
        · intro _
          simp [hval, retrySleeps_append, retrySleeps_conn, retrySleeps_post, retrySleeps_stError, retrySleeps_retrySleep, retrySleeps_nil]
      | error m =>
        by_cases hex : m.isRequestException = true
        · by_cases hg : (attempt == MAX_RETRIES - 1) = true
          · have hval : enhanceAux env text attempt timeout (fuel + 1) =
                (EnhanceResult.raised m,
                  (check_ollama_connection (env attempt).conn).2 ++
                    [Event.post timeout]) := by
              rw [enhanceAux_succ, attemptBody_eq]
              simp [hc, hreq, hex, hg]
            have ha : attempt = MAX_RETRIES - 1 := by simpa using hg
            refine ⟨?_, ?_, ?_, ?_, ?_⟩
            · simp only [hval]
              simp [postTimeouts_append, postTimeouts_conn, postTimeouts_post, postTimeouts_stError, postTimeouts_retrySleep, postTimeouts_nil, geomSeq,
                initSeg]
            · simp only [hval]
              rw [sffp_conn]
              exact sffp_post_nil timeout
            · intro hinv e he
              simp only [hval] at he
              simp at he
              subst he
              have hf : fuel = 0 := by
                rw [hM] at hinv ha
                omega
              subst hf
              refine ⟨hex, ?_, ?_⟩
              · simp only [hval]
                simp [postTimeouts_append, postTimeouts_conn, postTimeouts_post, postTimeouts_stError, postTimeouts_retrySleep, postTimeouts_nil, geomSeq]
              · rw [← ha]
                exact hreq
            · intro _ _
              simp [hval, EnhanceResult.isFallback]
            · intro _
              simp [hval, retrySleeps_append, retrySleeps_conn, retrySleeps_post, retrySleeps_stError, retrySleeps_retrySleep, retrySleeps_nil]
          · rcases hrec : enhanceAux env text (attempt + 1)
                (timeout * TIMEOUT_BACKOFF_FACTOR) fuel with ⟨r2, evs2⟩
            have hval : enhanceAux env text attempt timeout (fuel + 1) =
                (r2,
                  ((check_ollama_connection (env attempt).conn).2 ++
                      [Event.post timeout]) ++
                    Event.retrySleep (timeout * 5) :: evs2) := by
              rw [enhanceAux_succ, attemptBody_eq]
              simp [hc, hreq, hex, hg, hrec]
            have IH := enhanceAux_master env text fuel (attempt + 1)
              (timeout * TIMEOUT_BACKOFF_FACTOR)
            rw [hrec] at IH
            have hne : attempt ≠ MAX_RETRIES - 1 := by
              intro hhh
              rw [hhh] at hg
              simp at hg
            refine ⟨?_, ?_, ?_, ?_, ?_⟩
            · have IA := IH.1
              simp only [initSeg] at IA ⊢
              simp only [hval]
              simp [postTimeouts_append, postTimeouts_conn, postTimeouts_post, postTimeouts_stError, postTimeouts_retrySleep, postTimeouts_nil, geomSeq]
              simpa using IA
            · have IB := IH.2.1
              simp only [hval]
              rw [List.append_assoc, sffp_conn]
              show sleepsFollowFailedPost
                (Event.post timeout :: Event.retrySleep (timeout * 5) :: evs2) = true
              rw [sffp_post_retrySleep]
              simp only [beq_self_eq_true, Bool.true_and]
              simpa using IB
            · intro hinv e he
              simp only [hval] at he
              have hinv2 : attempt + 1 + fuel = MAX_RETRIES := by
                rw [hM] at hinv ⊢
                omega
              have IC := IH.2.2.1 hinv2 e (by simpa using he)
              refine ⟨IC.1, ?_, IC.2.2⟩
              simp only [hval]
              simp [postTimeouts_append, postTimeouts_conn, postTimeouts_post, postTimeouts_stError, postTimeouts_retrySleep, postTimeouts_nil, geomSeq]
              simpa using IC.2.1
            · intro hinv _
              have hfuel1 : 1 ≤ fuel := by
                rw [hM] at hinv hne
                omega
              have hinv2 : attempt + 1 + fuel = MAX_RETRIES := by
                rw [hM] at hinv ⊢
                omega
              have ID := IH.2.2.2.1 hinv2 hfuel1
              simp only [hval]
              simpa using ID
            · intro hinv
              have hfuel1 : 1 ≤ fuel := by
                rw [hM] at hinv hne
                omega
              have hinv2 : attempt + 1 + fuel = MAX_RETRIES := by
                rw [hM] at hinv ⊢
                omega
              have IE := IH.2.2.2.2 hinv2
              simp only [hval]
              simp [retrySleeps_append, retrySleeps_conn, retrySleeps_post, retrySleeps_stError, retrySleeps_retrySleep, retrySleeps_nil] at IE ⊢
              omega
        · have hval : enhanceAux env text attempt timeout (fuel + 1) =
              (EnhanceResult.degraded text,
                ((check_ollama_connection (env attempt).conn).2 ++
                    [Event.post timeout]) ++
                  [Event.stError ("Unexpected error: " ++ m.str)]) := by
            rw [enhanceAux_succ, attemptBody_eq]
            simp [hc, hreq, hex]
          refine ⟨?_, ?_, ?_, ?_, ?_⟩
          · simp only [hval]
            simp [postTimeouts_append, postTimeouts_conn, postTimeouts_post, postTimeouts_stError, postTimeouts_retrySleep, postTimeouts_nil, geomSeq,
              initSeg]
          · simp only [hval]
            rw [List.append_assoc, sffp_conn]
            show sleepsFollowFailedPost
              (Event.post timeout ::
                Event.stError ("Unexpected error: " ++ m.str) :: []) = true
            rw [sffp_post_stError]
            rfl
          · intro _ e he
            simp only [hval] at he
            simp at he
          · intro _ _
            simp [hval, EnhanceResult.isFallback]
          · intro _
            simp [hval, retrySleeps_append, retrySleeps_conn, retrySleeps_post, retrySleeps_stError, retrySleeps_retrySleep, retrySleeps_nil]
    · have hval : enhanceAux env text attempt timeout (fuel + 1) =
          (EnhanceResult.degraded text,
            (check_ollama_connection (env attempt).conn).2 ++
              [Event.stError "Unexpected error: Ollama server unavailable"]) := by
        rw [enhanceAux_succ, attemptBody_eq, if_neg hc]
        rfl
      refine ⟨?_, ?_, ?_, ?_, ?_⟩
      · simp only [hval]
        simp [postTimeouts_append, postTimeouts_conn, postTimeouts_post, postTimeouts_stError, postTimeouts_retrySleep, postTimeouts_nil, initSeg]
      · simp only [hval]
        rw [sffp_conn]
        rfl
      · intro _ e he
        simp only [hval] at he
        simp at he
      · intro _ _
        simp [hval, EnhanceResult.isFallback]
      · intro _
        simp [hval, retrySleeps_append, retrySleeps_conn, retrySleeps_post, retrySleeps_stError, retrySleeps_retrySleep, retrySleeps_nil]

/-- When the attempt body of the current iteration raises outside the
RequestException class, the loop returns the input text at once, with only
the diagnostic appended to the trace. -/
theorem enhanceAux_degrade_step (env : Nat → AttemptEnv) (text : String)
    (attempt timeout fuel : Nat) (e : PyExc) (evs : List Event)
    (hab : attemptBody (env attempt) timeout = (Except.error e, evs))
    (hex : e.isRequestException = false) :
    enhanceAux env text attempt timeout (fuel + 1) =
      (EnhanceResult.degraded text,
        evs ++ [Event.stError ("Unexpected error: " ++ e.str)]) := by
  rw [enhanceAux_succ, hab]
  simp [hex]

/-- C2: every enhancement call makes at most 3 generation requests, their
timeouts form an initial segment of the strictly doubling sequence 30, 60,
120 from the base value 30, at most two backoff sleeps ever occur, and when
the call re-raises, all three requests were made with those timeouts and
the re-raised error is the transport error of the final request. -/
theorem C2_retry_bound (env : Nat → AttemptEnv) (text : String) :
    initSeg (postTimeouts (enhance_text_with_ollama env text).2) [30, 60, 120] ∧
    (postTimeouts (enhance_text_with_ollama env text).2).length ≤ 3 ∧
    (retrySleeps (enhance_text_with_ollama env text).2).length ≤ 2 ∧
    ∀ e, (enhance_text_with_ollama env text).1 = EnhanceResult.raised e →
      e.isRequestException = true ∧
      postTimeouts (enhance_text_with_ollama env text).2 = [30, 60, 120] ∧
      requestStep (env 2).post = Except.error e := by
  obtain ⟨hA, hB, hC, hD, hE⟩ :=
    enhanceAux_master env text MAX_RETRIES 0 INITIAL_TIMEOUT
  exact ⟨hA, initSeg_length_le hA, hE rfl, fun e he => hC rfl e he⟩

/-- C2 witness: on the environment whose requests always time out, the call
re-raises the transport error after exactly the three requests with
timeouts 30, 60, 120. -/
theorem C2_retry_bound_witness :
    postTimeouts (enhance_text_with_ollama transportFailEnv "hello").2 =
      [30, 60, 120] ∧
    (PyExc.requestException "timeout").isRequestException = true ∧
    requestStep (transportFailEnv 2).post =
      Except.error (PyExc.requestException "timeout") := by
  have h := (C2_retry_bound transportFailEnv "hello").2.2.2
    (PyExc.requestException "timeout") rfl
  exact ⟨h.2.1, h.1, h.2.2⟩

/-- C3 counterexample: with transport failures throughout, the sleep before
the attempt that uses timeout 60 lasts 150 tenths of a unit (15 units, half
of the failed attempt's timeout 30), not the 300 tenths (30 units) that
half of the upcoming timeout 60 would be. -/
theorem C3_counterexample :
    retrySleeps (enhance_text_with_ollama transportFailEnv "hello").2 =
      [150, 300] ∧
    postTimeouts (enhance_text_with_ollama transportFailEnv "hello").2 =
      [30, 60, 120] ∧
    (150 : Nat) ≠ 60 * 5 := by
  refine ⟨rfl, rfl, by omega⟩

/-- C3 amended: every backoff sleep of an enhancement call immediately
follows the failed request it backs off from and lasts half of THAT
request's timeout — one quarter of the timeout about to be used — rather
than half of the next attempt's timeout. -/
theorem C3_sleep_half_of_failed (env : Nat → AttemptEnv) (text : String) :
    sleepsFollowFailedPost (enhance_text_with_ollama env text).2 = true :=
  (enhanceAux_master env text MAX_RETRIES 0 INITIAL_TIMEOUT).2.1

/-- C10: the defensive fallback return of main.py line 105 is unreachable:
no enhancement call exits through it, whatever the environment does. -/
theorem C10_fallback_unreachable (env : Nat → AttemptEnv) (text : String) :
    (enhance_text_with_ollama env text).1.isFallback = false :=
  (enhanceAux_master env text MAX_RETRIES 0 INITIAL_TIMEOUT).2.2.2.1 rfl
    (by decide)

/-- C1 counterexample: on a permanently unreachable backend the call does
not fail with a BackendUnavailable error: it returns the original input
text through the silent-degrade path, because the builtin ConnectionError
of main.py line 66 is not a requests.exceptions.RequestException and the
generic except clause catches it. -/
theorem C1_counterexample :
    (enhance_text_with_ollama unreachableEnv "hello").1 =
      EnhanceResult.degraded "hello" ∧
    (enhance_text_with_ollama unreachableEnv "hello").1.isRaised = false :=
  ⟨rfl, rfl⟩

/-- C1 amended: against a permanently unreachable backend (both probes of
the connection check raise, for every attempt), the enhancement call
returns the original input text unchanged after exactly one
probe-restart-reprobe cycle — one restart attempt and no generation
request — and raises nothing: the builtin ConnectionError takes the
generic-exception degrade path instead of surfacing as a failure. -/
theorem C1_unreachable_degrades (env : Nat → AttemptEnv) (text : String)
    (h : ∀ i, (env i).conn.probe1 = ProbeOutcome.exc ∧
      (env i).conn.probe2 = ProbeOutcome.exc) :
    (enhance_text_with_ollama env text).1 = EnhanceResult.degraded text ∧
    (enhance_text_with_ollama env text).1.isRaised = false ∧
    postTimeouts (enhance_text_with_ollama env text).2 = [] ∧
    startServerCount (enhance_text_with_ollama env text).2 = 1 := by
  obtain ⟨h1, h2⟩ := h 0
  cases hso : (env 0).conn.startOk
  · have hck : check_ollama_connection (env 0).conn =
        (false, [Event.getTags, Event.startServer]) := by
      simp [check_ollama_connection, start_ollama_server, h1, h2, hso]
    have hab : attemptBody (env 0) INITIAL_TIMEOUT =
        (Except.error (PyExc.builtinConnectionError "Ollama server unavailable"),
          [Event.getTags, Event.startServer]) := by
      rw [attemptBody_eq, hck]
      rfl
    have hval : enhance_text_with_ollama env text =
        (EnhanceResult.degraded text,
          [Event.getTags, Event.startServer,
            Event.stError "Unexpected error: Ollama server unavailable"]) :=
      enhanceAux_degrade_step env text 0 INITIAL_TIMEOUT 2 _ _ hab rfl
    rw [hval]
    exact ⟨rfl, rfl, rfl, rfl⟩
  · have hck : check_ollama_connection (env 0).conn =
        (false, [Event.getTags, Event.startServer, Event.startupSleep 30,
          Event.startupSleep 50, Event.getTags]) := by
      simp [check_ollama_connection, start_ollama_server, h1, h2, hso]
    have hab : attemptBody (env 0) INITIAL_TIMEOUT =
        (Except.error (PyExc.builtinConnectionError "Ollama server unavailable"),
          [Event.getTags, Event.startServer, Event.startupSleep 30,
            Event.startupSleep 50, Event.getTags]) := by
      rw [attemptBody_eq, hck]
      rfl
    have hval : enhance_text_with_ollama env text =
        (EnhanceResult.degraded text,
          [Event.getTags, Event.startServer, Event.startupSleep 30,
            Event.startupSleep 50, Event.getTags,
            Event.stError "Unexpected error: Ollama server unavailable"]) :=
      enhanceAux_degrade_step env text 0 INITIAL_TIMEOUT 2 _ _ hab rfl
    rw [hval]
    exact ⟨rfl, rfl, rfl, rfl⟩

/-- C1 amended witness: the amended statement at the concrete permanently
unreachable environment. -/
theorem C1_unreachable_degrades_witness :
    (enhance_text_with_ollama unreachableEnv "hello").1 =
      EnhanceResult.degraded "hello" ∧
    postTimeouts (enhance_text_with_ollama unreachableEnv "hello").2 = [] ∧
    startServerCount (enhance_text_with_ollama unreachableEnv "hello").2 = 1 := by
  have h := C1_unreachable_degrades unreachableEnv "hello" (fun i => ⟨rfl, rfl⟩)
  exact ⟨h.1, h.2.2.1, h.2.2.2⟩

/-- C4: when an attempt raises outside the transport class — the
connection check passed and the request step failed with an exception that
is not a RequestException, as a response-parsing failure does — the call
immediately returns the original input text unchanged with exactly one
diagnostic appended after the request, no retry sleep, no further request
and no raise. -/
theorem C4_silent_degrade (env : Nat → AttemptEnv) (text : String)
    (attempt timeout fuel : Nat) (m : String)
    (hcheck : (check_ollama_connection (env attempt).conn).1 = true)
    (hreq : requestStep (env attempt).post =
      Except.error (PyExc.otherException m)) :
    enhanceAux env text attempt timeout (fuel + 1) =
      (EnhanceResult.degraded text,
        (check_ollama_connection (env attempt).conn).2 ++
          [Event.post timeout, Event.stError ("Unexpected error: " ++ m)]) := by
  have hab : attemptBody (env attempt) timeout =
      (Except.error (PyExc.otherException m),
        (check_ollama_connection (env attempt).conn).2 ++ [Event.post timeout]) := by
    rw [attemptBody_eq, if_pos hcheck, hreq]
  have h := enhanceAux_degrade_step env text attempt timeout fuel _ _ hab rfl
  rw [h, List.append_assoc]
  rfl

/-- C4 witness: on the environment whose response body fails to parse, the
call returns the original text after one probe, one request and one
diagnostic. -/
theorem C4_silent_degrade_witness :
    enhance_text_with_ollama parseErrEnv "draft" =
      (EnhanceResult.degraded "draft",
        [Event.getTags, Event.post 30,
          Event.stError "Unexpected error: KeyError: message"]) :=
  C4_silent_degrade parseErrEnv "draft" 0 30 2 "KeyError: message" rfl rfl

end DocAssistant
